/-
Verification of the TEST_CHATGPT_BOT natural-language-to-SQL service.

The repository contains several server variants:
* `src/server.js` holds two Express servers: the final one (lines 1-122,
  "variant A") and an older one (lines 124-241, "variant B").
* `src/unnamed/part_001` is a server with an in-memory schema cache, a
  `GET /ai/refresh` endpoint and an automatic in-request refresh.
* `src/unnamed/part_002` holds two further variants; the second one
  ("variant D", lines 107-206) executes a fixed `PO_Pending` select.
* `src/refreshSchema.js` and `src/unnamed/part_000` refresh a schema file.

This file shallowly embeds the string processing (markdown-fence
stripping, trimming, the SELECT-only guard), the prompt assembly, the
chat-request configuration, the schema store and the request handlers of
these variants, and proves the specification claims about them.
-/
import Mathlib

namespace BizBot

/-! ### JavaScript-style character and string utilities -/

/-- ASCII whitespace, as used by JavaScript `trim` and `\s` (we model the
ASCII subset: space, tab, line feed, carriage return, vertical tab, form
feed). -/
def jsWs (c : Char) : Bool :=
  c = ' ' || c = '\t' || c = '\n' || c = '\r' || c = '\x0b' || c = '\x0c'

/-- Lower-case every character (ASCII case folding, as in
`String.prototype.toLowerCase` on ASCII input and the `i` regex flag). -/
def lowerChars (l : List Char) : List Char :=
  l.map Char.toLower

/-- `isPrefixChars p l` holds when the character list `p` is a prefix of
`l` (the primitive behind JavaScript `startsWith` and anchored regexes). -/
def isPrefixChars : List Char → List Char → Bool
  | [], _ => true
  | _ :: _, [] => false
  | p :: ps, c :: cs => p = c && isPrefixChars ps cs

/-- `containsSub pat l` holds when `pat` occurs as a contiguous substring
of `l`. -/
def containsSub (pat : List Char) : List Char → Bool
  | [] => isPrefixChars pat []
  | c :: rest => isPrefixChars pat (c :: rest) || containsSub pat rest

/-- String-level substring test. -/
def containsStr (pat s : String) : Bool :=
  containsSub pat.data s.data

/-- Case-insensitive substring test. -/
def containsStrCI (pat s : String) : Bool :=
  containsSub (lowerChars pat.data) (lowerChars s.data)

/-- JavaScript `String.prototype.trim` on the ASCII whitespace set:
drop whitespace from both ends. -/
def trimChars (l : List Char) : List Char :=
  ((l.dropWhile jsWs).reverse.dropWhile jsWs).reverse

/-- String-level trim. -/
def trimS (s : String) : String :=
  ⟨trimChars s.data⟩

/-- The cleanup `text.replace(/[three backticks]sql|[three backticks]/g, "")`
used by server.js (line 93) and part_001 (line 174): a single left-to-right
regex scan that at each position first tries to remove a fence opener
followed by `sql`, then a bare fence. -/
def stripFences : List Char → List Char
  | '`' :: '`' :: '`' :: 's' :: 'q' :: 'l' :: rest => stripFences rest
  | '`' :: '`' :: '`' :: rest => stripFences rest
  | c :: rest => c :: stripFences rest
  | [] => []

/-- The cleanup of part_002 (`.replace(/[fence]sql/g, "").replace(/[fence]/g,
"")`), first pass: remove every occurrence of a fence opener followed by
`sql`. -/
def removeBtSql : List Char → List Char
  | '`' :: '`' :: '`' :: 's' :: 'q' :: 'l' :: rest => removeBtSql rest
  | c :: rest => c :: removeBtSql rest
  | [] => []

/-- The cleanup of part_002, second pass: remove every occurrence of a
bare three-backtick fence. -/
def removeBt : List Char → List Char
  | '`' :: '`' :: '`' :: rest => removeBt rest
  | c :: rest => c :: removeBt rest
  | [] => []

/-- Cleaning in server.js variant A (lines 92-93):
`content.trim()` then `.replace(/[fence]sql|[fence]/g, "").trim()`. -/
def cleanA (raw : String) : String :=
  ⟨trimChars (stripFences (trimChars raw.data))⟩

/-- Cleaning in part_001 (lines 173-175): `content.replace(/[fence]sql|[fence]/g,
"").trim()` (no leading trim before the fence removal). -/
def clean1 (raw : String) : String :=
  ⟨trimChars (stripFences raw.data)⟩

/-- Cleaning in part_002 `generateSQL` (lines 66-67 and 168-169):
`content.trim()`, then the two sequential global replaces, then `.trim()`. -/
def cleanD (raw : String) : String :=
  ⟨trimChars (removeBt (removeBtSql (trimChars raw.data)))⟩

/-- The SELECT guard of server.js variant A (`/^select/i.test(cleaned)`,
line 95), of server.js variant B and of part_001
(`sql.toLowerCase().startsWith("select")`): a case-insensitive prefix
check. -/
def startsWithSelect (s : String) : Bool :=
  isPrefixChars "select".data (lowerChars s.data)

/-- The SELECT guard of part_002 (`/^SELECT\s+/i.test(sql)`, lines 81 and
183): `select` case-insensitively, followed by at least one whitespace
character. -/
def startsWithSelectWs (s : String) : Bool :=
  isPrefixChars "select".data (lowerChars s.data) &&
    (match s.data.drop 6 with
     | c :: _ => jsWs c
     | [] => false)

/-- From the spec's words: the first whitespace-delimited token of a text,
used to state the claim that validation keys on the first token. -/
def specFirstToken (s : String) : List Char :=
  (s.data.dropWhile jsWs).takeWhile (fun c => !jsWs c)

/-! ### Data model -/

/-- One row of the schema catalog, as produced by the catalog query in
`src/unnamed/part_000` and `src/refreshSchema.js`:
`(table_name, column_name, data_type)`. -/
structure SchemaColumn where
  table_name : String
  column_name : String
  data_type : String
deriving DecidableEq, Repr

/-- A JSON scalar value, used to model response bodies whose exact key
set matters. -/
inductive JVal where
  | str (s : String)
  | num (n : Nat)
  | bool (b : Bool)
  | null
deriving DecidableEq, Repr

/-- A chat message sent to the OpenAI completion endpoint. -/
structure ChatMessage where
  role : String
  content : String
deriving DecidableEq, Repr

/-- The request object passed to `openai.chat.completions.create`.
JavaScript object keys that are absent are modelled as `none`; none of
the variants in this repository sets a `temperature` key. -/
structure ChatRequest where
  model : String
  messages : List ChatMessage
  temperature : Option ℚ
deriving DecidableEq, Repr

/-- The database operation a handler hands to Supabase: either an RPC
carrying the SQL text under a named argument key, or a query-builder
select on a fixed table. -/
inductive DbCall where
  | rpc (fn : String) (argKey : String) (sql : String)
  | tableSelect (tbl : String) (columns : String) (limit : Nat)
deriving DecidableEq, Repr

/-- The in-memory schema store of part_001 (lines 18-20): the cached
catalog (`null` initially) and the last refresh timestamp, modelled in
milliseconds. -/
structure StoreState (κ : Type) where
  cachedSchema : Option (List κ)
  lastRefreshedAt : Option Nat
deriving DecidableEq, Repr

/-! ### Prompt assembly -/

/-- The lines of the server.js buildPrompt template literal before the interpolated schemaCache (src/server.js lines 40-68), each line carrying its terminating newline; the first element is the newline that follows the opening backtick. -/
def promptPiecesA : List String :=
  ["\n",
   "You are an AI expert in writing PostgreSQL queries.\n",
   "\n",
   "⚠️ Rules:\n",
   "1. Always wrap table and column names that contain uppercase letters or underscores in double quotes (\x22\x22).\n",
   "2. Only generate SELECT statements; no inserts, updates, or deletes.\n",
   "3. Use the following table mappings when generating queries:\n",
   "\n",
   "   - When the user says \x22purchase order\x22, \x22PO pending\x22, or \x22pending PO\x22 → use table \x22PO_Pending\x22\n",
   "   - When the user says \x22purchase receipt\x22 → use table \x22Purchase_Receipt\x22\n",
   "   - When the user says \x22tasks\x22 or \x22checklist\x22 → use table \x22Checklist\x22\n",
   "   - When the user says \x22delegation\x22 → use table \x22Delegation\x22\n",
   "   - When the user says \x22store out\x22 → use table \x22Store_OUT\x22\n",
   "   - When the user says \x22store in\x22 → use table \x22Store_IN\x22\n",
   "   - When the user says \x22souda\x22 or \x22sauda\x22 → use table \x22Souda\x22\n",
   "   - When the user says \x22invoice\x22 → use table \x22INVOICE\x22\n",
   "   - When the user says \x22employee\x22 or \x22staff\x22 → use table \x22Active_Employee_Details\x22\n",
   "   - When the user says \x22purchase order\x22, \x22pending po\x22, or \x22po pending\x22 → use table \x22PO_Pending\x22.\n",
   "     There is **no** \x22status\x22 column here.\n",
   "     Use filters based on available columns like:\n",
   "       - \x22Qty\x22 (e.g., Qty > 0 means pending)\n",
   "       - \x22Lead_Time_To_Lift_Total_Qty\x22 if comparing delivery progress\n",
   "       - or \x22ERP_Po_Number\x22 for specific order identification.\n",
   "\n",
   "4. Each table has columns relevant to its category as shown in schema below.\n",
   "5. Do not invent table or column names not listed in the schema.\n",
   "6. Always include WHERE filters or LIMIT when the question suggests summarising, pending, or latest data.\n",
   "\n",
   "Schema (table_name, column_name, data_type):\n"]

/-- Text of the server.js buildPrompt template before the interpolated
schemaCache: the concatenation of its lines. -/
def promptPreA : String :=
  ⟨(promptPiecesA.map String.data).foldr (· ++ ·) []⟩

/-- The lines of the part_001 prompt template literal before the interpolated schemaText (src/unnamed/part_001 lines 62-161), each line carrying its terminating newline; the first element is the newline that follows the opening backtick. -/
def prompt1Pieces : List String :=
  ["\n",
   "You are an AI expert in writing PostgreSQL queries.\n",
   "\n",
   "⚙️ **Rules:**\n",
   "    Given a user question and conversation history, create a syntactically correct PostgreSQL query.\n",
   "    The query should fullfill user\x27s query.\n",
   "    The query should work on the given schema.\n",
   "    \x7bschema\x7d\n",
   "    --- Querying Rules ---\n",
   "    1.  **CRITICAL `UNION` RULE:** When using `UNION` or `UNION ALL`, you **MUST NOT** use `SELECT *`. The tables have different columns and this will cause an error.\n",
   "    2.  **HOW TO FIX `UNION`:** You must explicitly list the columns to select. Identify a set of common, meaningful columns (e.g., \x22Task\x22, \x22Status\x22, \x22Assignee\x22, \x22Priority\x22, \x22Due_Date\x22). For tables that are missing one of these columns, you **MUST** select `NULL` and cast it to the appropriate type, aliasing it to the common column name. For example: `SELECT \x22Task\x22, \x22Status\x22, NULL::text AS \x22Assignee\x22 FROM \x22Checklist\x22`.\n",
   "    3. Use advanced matching techniques, to respond to more flexible queries.\n",
   "    4. Only give 1 SQL query at a time.\n",
   "\n",
   "    --- Database Descriptions ---\n",
   "    - When a user asks about \x22tasks\x22 or \x22kaam\x22, they are referring to entries where a table has fields relevant to tasks, like \x22TaskID\x22, or \x22Task Description\x22. You MUST query one of given tables that is related to tasks. DO NOT invent or query a non-existent table named \x22tasks\x22.\n",
   "    - When a user asks about \x22po pending\x22 or \x22pending po\x22, they are referring to the Purchase orders that are pending.\n",
   "    - When a user asks about \x22orders\x22, they are usually referring to entries where a table has fields relevant to Orders like \x22Dispatch Quantity\x22, \x22Order Number\x22, \x22Transporter Name\x22 and \x22Brand Name\x22.\n",
   "    - When a user asks about \x22Employee\x22, they are usually referring to entries where a table has fields relevant to Employee Details like \x22Designation\x22, \x22Name as per Aadhar\x22, \x22Mobile Number\x22 and \x22SKA-Joining ID\x22.\n",
   "    - When a user asks about \x22Store OUT\x22, they are usually referring to entries where a table has fields relevant to Store OUT like \x22Store Out Number\x22, \x22Indentor Name\x22, \x22Department\x22, \x22Area\x22, \x22Product Name \x22, \x22Quantity\x22 and \x22Amount\x22.\n",
   "    - When a user asks about \x22Store IN\x22, they are usually referring to entries where a table has fields relevant to Store IN like \x22Indent Number\x22, \x22What\x22, \x22Product Name\x22, \x22Vendor Name\x22, \x22Rate \x22, \x22Quantity\x22 and \x22Payment Term\x22.\n",
   "    - When a user asks about \x22Souda\x22, they are usually referring to entries where a table has fields relevant to Souda like \x22Sauda Number\x22, \x22Indentor Name\x22, \x22Date Of Sauda\x22, \x22Area\x22, \x22Broker Name\x22, \x22Party Name\x22, \x22Delear Name\x22, \x22Rate\x22, \x22Order Quantity (Ton)\x22, \x22Total Dispatch Qty\x22, \x22Pending Qty\x22, \x22Order Cancel Qty\x22, \x22Sauda Status\x22 and \x22Brand Name\x22.\n",
   "    - When a user asks about \x22INVOICE/invoice\x22, they are usually referring to entries where a table has fields relevant to INVOICE  like \x22Unique No\x22, \x22Order Number\x22, \x22Party Name\x22, \x22Sauda No.\x22, \x22Do No.\x22, \x22Bill Date\x22, \x22Bill No.\x22, \x22Bill Image\x22, \x22Delivery Term\x22, \x22Tramsporter Name\x22, \x22Pending Qty\x22, \x22Vehicle No.\x22, \x22LR-Number\x22, \x22Bill Status\x22, \x22Size\x22, \x22Section\x22, \x22Qty\x22, \x22Rate\x22, \x22Customer Discount\x22 and \x22UDAAN/VIDHAN\x22. \n",
   "    - When a user refers to sheets they are actually talking about tables.\n",
   "\n",
   "    - The database deals with several types of data: Tasks, Purchase Orders, Sales, Production, Inventory, Finance, Employees, and Enquiries.\n",
   "    - Here is a list of tables that fall in each category:\n",
   "        - **Tasks**\n",
   "            - **Checklist**: contains details of recurring tasks.\n",
   "            - **Delegation**: contains details of delegation tasks (doer-wise, name-wise, giver-wise, department-wise).\n",
   "        - **Purchase Orders**\n",
   "            - **PO Pending**: contains purchase order information, including products, quantities, rates, total amounts, and current fulfillment status.\n",
   "            - **Purchase Receipt**: contains material that has been received in the plant.\n",
   "        - **Inventory**\n",
   "            - **Store OUT**: records materials issued from the store.\n",
   "            - **Store IN**: records materials received into the store.\n",
   "        - **Employees**\n",
   "            -**Active Employee Details**: contains detailed information about active company employees, including joining ID, name, father\x27s name, date of joining, designation, address, date of birth, gender, mobile number, bank account details, email, qualification, and department.\n",
   "        - **Sales**\n",
   "            - **Souda**: contains details of sales orders including broker name, party name, rate, souda/sauda quantity, pending quantity, sauda/souda status, and brand name. It may be asked as sauda or souda\n",
   "            - **INVOICE **: contains details of invoices including party name, order number, bill number, bill date, transporter name, vehicle number, delivery term, brand name (UDAAN/VIDHAN), quantity, rate, and bill status.\n",
   "    - Do not take table as there names suggest. Use the above guide to get the relevant table.\n",
   "    - When user asks query based on some identity, that can be present in other tables, and there is no previous context for choosing a table, give data, or all occurances.\n",
   "    - When user asks pending tasks, makes sure to only give pending tasks till now. No pending tasks in future dates.\n",
   "    ------------------------\n",
   "    \n",
   "    --- Data Dictionary ---\n",
   "    - The \x22Status\x22 column: \x27Completed\x27, \x27Yes\x27, \x27Done\x27 all mean the task is complete. NULL/Empty, \x27Not Complete\x27, \x27Pending\x27 may mean the task is pending. Basically anything not complete is pending.\n",
   "    - The \x22Priority\x22 column: \x27High\x27, \x27Urgent\x27, \x27H\x27 all mean high priority. \x27Low\x27 and \x27L\x27 mean low priority.\n",
   "    -----------------------\n",
   "\n",
   "    - **IMPORTANT:** Only return the SQL query. Do not add any other text or explanation.\n",
   "    - **IMPORTANT:** If a table or column name contains a space or is a reserved keyword, you MUST wrap it in double quotes. For example: \x22Task Description\x22.\n",
   "    - **IMPORTANT:** Use the columns provided in the schema, if user mention a column that is not in schema, try to find the closest relevant column in the schema.\n",
   "\n",
   "\n",
   "\n",
   "4. For **PO_Pending**:\n",
   "   - There is **no status column**.\n",
   "   - Use filters like:\n",
   "     - \x22Qty > 0\x22 → pending\n",
   "     - \x22Lead_Time_To_Lift_Total_Qty\x22 for delivery comparison\n",
   "     - \x22ERP_Po_Number\x22 for specific order lookup.\n",
   "\n",
   "5. Each table has columns relevant to its category. Use only those visible in the schema below.\n",
   "6. Never invent table or column names.\n",
   "7. Include **WHERE**, **LIMIT**, or **ORDER BY** when summarizing or filtering.\n",
   "8. Format query cleanly for execution.\n",
   "9. Return only SQL code, no explanation or markdown.\n",
   "    --- Instructions ---\n",
   "    - Report queries should include\n",
   "    - Total number of relevant entries\n",
   "    - Total amount pending (if applicable)\n",
   "    - Total completed (if applicable)\n",
   "    - Total pending (if applicable)\n",
   "    - Other relevant data points based on the columns in the table.\n",
   "    - Not all data points are directly available from columns names, some data points need to be generated using SQL functions like COUNT, SUM, etc. on relevant columns.\n",
   "    - And a small table with aggregate data based on given by, vendors or parties showing insight on the data. Though data points are more important.\n",
   "    - Calculate quantities, amounts, etc. based on different columns in the table. For example, \n",
   "        - total amount pending can be calculated using SUM of \x22Amount\x22 column where \x22Status\x22 is \x27Pending\x27.\n",
   "        - total quantity can be calculated using different columns of the row related to quantity like \x22Quantity\x22, \x22Total Lifted\x22, \x22Order Cancelled Quantity\x22, etc. ex Pending Quantity = Quantity - Total Lifted Quantity.\n",
   "        - Make sure to calculate these data not just SUM(\x22COLUMN_NAME\x22) everywhere.\n",
   "        - Add comments in the SQL query to explain your logic where necessary.\n",
   "    - Make sure that the output of SQL query gives all data at once. Only give one query.\n",
   "    - Make sure to query in limits, as there is a lot of data in the tables. And the limits should make sense for the question asked.\n",
   "    - The limits should give wrong data for the user\x27s query. Still it should not query 1000s of rows.\n",
   "    You are a helpful AI assistant, Diya. \n",
   "    Your job is to answer the user\x27s question in concise manner, based on the data provided, which should be easy and fast to read, with markup and lists and tables if needed. \n",
   "    Only reply in English or Hindi based on user\x27s question. \n",
   "    Do not give any clarification about how you got the result. \n",
   "    Never reply with more than 20 rows of data, whether that be in list or tables.\n",
   "    Show data points in readable format.\n",
   "    All currencies are in Rupees until mentioned otherwise. Show the relevant units wherever possible.\n",
   "    Keep the large numbers in human readable format, and use indian number system (lakhs, crores) and commas.\n",
   "    In reports, based on data points, give bite sized insights on the data. Bold the important numbers and details.\n",
   "    Show information related to all rows seprately, if needed use tables or lists in reports.\n",
   "    Where data is not provided dont show data not provided.\n",
   "    --------------------\n",
   "\n",
   "🧾 Schema (table_name, column_name, data_type):\n"]

/-- Text of the part_001 prompt template before the interpolated
schemaText: the concatenation of its lines. -/
def prompt1Pre : String :=
  ⟨(prompt1Pieces.map String.data).foldr (· ++ ·) []⟩

/-- server.js `buildPrompt` (lines 39-75): the template literal around the
interpolated `schemaCache` and `question`. The JavaScript function closes
over the module-level `schemaCache`; here it is an explicit argument. -/
def buildPrompt (schemaCache question : String) : String :=
  promptPreA ++ schemaCache ++ "\n\nUser question: \x22" ++ question ++
    "\x22\n\nReturn only SQL code, no explanation.\n"

/-- part_001 prompt (lines 62-165): the template literal around the
interpolated `schemaText` and `question`. -/
def prompt1 (schemaText question : String) : String :=
  prompt1Pre ++ schemaText ++ "\n\nUser question: \x22" ++ question ++ "\x22\n"

/-! ### Chat-completion requests

Each variant's argument to `openai.chat.completions.create`, as object
literals in the source. None of them carries a `temperature` key. -/

/-- server.js variant A (lines 84-90): model `gpt-4o-mini`, a fixed system
message and the assembled prompt as user message; no `temperature`. -/
def chatRequestA (schemaCache question : String) : ChatRequest :=
  { model := "gpt-4o-mini",
    messages :=
      [⟨"system", "You generate SQL for Supabase Postgres safely."⟩,
       ⟨"user", buildPrompt schemaCache question⟩],
    temperature := none }

/-- server.js variant B (lines 191-197): model `gpt-4o-mini`, the big
system prompt plus the raw question; no `temperature`. -/
def chatRequestB (systemPrompt question : String) : ChatRequest :=
  { model := "gpt-4o-mini",
    messages := [⟨"system", systemPrompt⟩, ⟨"user", question⟩],
    temperature := none }

/-- part_001 (lines 168-171): model `gpt-4-turbo`, the assembled prompt as
the single user message; no `temperature`. -/
def chatRequest1 (schemaText question : String) : ChatRequest :=
  { model := "gpt-4-turbo",
    messages := [⟨"user", prompt1 schemaText question⟩],
    temperature := none }

/-- part_002 `generateSQL` (lines 61-64 and 163-166): model `gpt-4o-mini`,
the assembled prompt as the single user message; no `temperature`. -/
def chatRequestD (prompt : String) : ChatRequest :=
  { model := "gpt-4o-mini",
    messages := [⟨"user", prompt⟩],
    temperature := none }

/-! ### Request handlers

Each handler is embedded as a pure function of the request body and of
the outcomes of its external calls (OpenAI generation, Supabase
execution, catalog fetch, chart rendering).  Besides the HTTP response,
every outcome records which downstream calls were made, so that claims of
the form "X never reaches execution" are statable. -/

/-- JavaScript truthiness test for the destructured `question` field:
`!question` is true when the field is absent or the empty string. -/
def falsyQ : Option String → Bool
  | none => true
  | some s => s = ""

/-- Success body of server.js variant A, part_001 and part_002
(`{summary, sql, table}`; no chart key). -/
structure OkBody (ρ : Type) where
  summary : String
  sql : String
  table : List ρ
deriving DecidableEq, Repr

/-- Success body of server.js variant B (`{summary, sql, table, chart}`). -/
structure OkBodyB (ρ : Type) where
  summary : String
  sql : String
  table : List ρ
  chart : Option String
deriving DecidableEq, Repr

/-- Response of the chartless variants: either a success body or
`{error}`. -/
inductive Resp (ρ : Type) where
  | ok (body : OkBody ρ)
  | fail (error : String)
deriving DecidableEq, Repr

/-- Response of server.js variant B. -/
inductive RespB (ρ : Type) where
  | ok (body : OkBodyB ρ)
  | fail (error : String)
deriving DecidableEq, Repr

/-- Outcome of one `POST /ai/query` request in server.js variant A. -/
structure OutcomeA (ρ : Type) where
  status : Nat
  resp : Resp ρ
  calledGen : Bool
  executed : Option DbCall
deriving DecidableEq, Repr

/-- server.js variant A `POST /ai/query` (lines 78-111).  `gen` is the
outcome of the OpenAI call (its `content`), `run` the outcome of the
`run_sql` RPC on a given SQL text. -/
def handleQueryA {ρ : Type} (question : Option String)
    (gen : Except String String) (run : String → Except String (List ρ)) :
    OutcomeA ρ :=
  if falsyQ question then
    { status := 400, resp := .fail "Missing question",
      calledGen := false, executed := none }
  else
    match gen with
    | .error e =>
      { status := 500, resp := .fail e, calledGen := true, executed := none }
    | .ok content =>
      let cleaned := cleanA content
      if startsWithSelect cleaned then
        match run cleaned with
        | .error e =>
          { status := 500, resp := .fail e, calledGen := true,
            executed := some (.rpc "run_sql" "sql" cleaned) }
        | .ok rows =>
          { status := 200,
            resp := .ok
              { summary := "Fetched " ++ toString rows.length ++
                  " rows for \x22" ++ (question.getD "") ++ "\x22",
                sql := cleaned,
                table := rows.take 20 },
            calledGen := true,
            executed := some (.rpc "run_sql" "sql" cleaned) }
      else
        { status := 500, resp := .fail "Only SELECT queries are allowed",
          calledGen := true, executed := none }

/-- Outcome of one request in server.js variant B, also recording whether
the chart failure was logged with `console.warn`. -/
structure OutcomeB (ρ : Type) where
  status : Nat
  resp : RespB ρ
  calledGen : Bool
  executed : Option DbCall
  chartWarned : Bool
deriving DecidableEq, Repr

/-- server.js variant B `POST /ai/query` (lines 151-236).  `vercel` is
the truthiness of `process.env.VERCEL`; `render` is the outcome of the
chart rasterization (`renderToBuffer` plus base64), whose failure is
caught and logged. -/
def handleQueryB {ρ : Type} (question : Option String)
    (gen : Except String String) (run : String → Except String (List ρ))
    (vercel : Bool) (render : Except String String) : OutcomeB ρ :=
  if falsyQ question then
    { status := 400, resp := .fail "Question missing",
      calledGen := false, executed := none, chartWarned := false }
  else
    match gen with
    | .error e =>
      { status := 500, resp := .fail e, calledGen := true, executed := none,
        chartWarned := false }
    | .ok content =>
      let sql := trimS content
      if startsWithSelect sql then
        match run sql with
        | .error e =>
          { status := 500, resp := .fail e, calledGen := true,
            executed := some (.rpc "exec_sql" "sql" sql),
            chartWarned := false }
        | .ok rows =>
          let chartBase64 : Option String :=
            if vercel then none
            else match render with
              | .ok b => some b
              | .error _ => none
          { status := 200,
            resp := .ok
              { summary := "Fetched " ++ toString rows.length ++ " rows.",
                sql := sql,
                table := rows,
                chart := chartBase64 },
            calledGen := true,
            executed := some (.rpc "exec_sql" "sql" sql),
            chartWarned := !vercel && (match render with
              | .ok _ => false
              | .error _ => true) }
      else
        { status := 500, resp := .fail "Only SELECT queries are allowed",
          calledGen := true, executed := none, chartWarned := false }

/-- Outcome of one `GET /ai/refresh` request in part_001: the new store
state, the HTTP status and the JSON body as a key-value list. -/
structure RefreshOutcome (κ : Type) where
  state : StoreState κ
  status : Nat
  body : List (String × JVal)
deriving DecidableEq, Repr

/-- part_001 `GET /ai/refresh` (lines 23-39).  `fetch` is the outcome of
the `get_schema` RPC; `now` the current time in milliseconds (the code
stores `new Date().toISOString()`, which we render via `toString`). -/
def handleRefresh1 {κ : Type} (st : StoreState κ)
    (fetch : Except String (List κ)) (now : Nat) : RefreshOutcome κ :=
  match fetch with
  | .ok data =>
    { state := { cachedSchema := some data, lastRefreshedAt := some now },
      status := 200,
      body := [("success", .bool true), ("columns", .num data.length),
               ("refreshed_at", .str (toString now))] }
  | .error e =>
    { state := st,
      status := 500,
      body := [("error", .str "Schema refresh failed"),
               ("details", .str e)] }

/-- The staleness test of part_001 (lines 48-51): refresh when the cache
is empty, or when a last-refresh time exists and is more than 24 hours
(86400000 ms) old. -/
def needsRefresh1 {κ : Type} (st : StoreState κ) (now : Nat) : Bool :=
  st.cachedSchema.isNone ||
    (match st.lastRefreshedAt with
     | none => false
     | some t => decide (now - t > 86400000))

/-- Outcome of one `POST /ai/query` request in part_001. -/
structure Outcome1 (κ ρ : Type) where
  state : StoreState κ
  status : Nat
  resp : Resp ρ
  fetchedCatalog : Bool
  calledGen : Bool
  executed : Option DbCall
deriving DecidableEq, Repr

/-- part_001 `POST /ai/query` (lines 42-193).  `fetchQ` is the
`{data, error}` pair the `get_schema` RPC resolves to during the
automatic refresh; the code destructures only `data` and never checks
`error`, so on failure `cachedSchema` is assigned `data = null`.  `gen`
is the OpenAI outcome, `run` the `run_sql` RPC outcome. -/
def handleQuery1 {κ ρ : Type} (st : StoreState κ) (question : Option String)
    (fetchQ : Option (List κ) × Option String)
    (gen : Except String String) (run : String → Except String (List ρ))
    (now : Nat) : Outcome1 κ ρ :=
  if falsyQ question then
    { state := st, status := 500,
      resp := .fail "Missing \x27question\x27 in request body",
      fetchedCatalog := false, calledGen := false, executed := none }
  else
    let doRefresh := needsRefresh1 st now
    let st' : StoreState κ :=
      if doRefresh then
        { cachedSchema := fetchQ.1, lastRefreshedAt := some now }
      else st
    match gen with
    | .error e =>
      { state := st', status := 500, resp := .fail e,
        fetchedCatalog := doRefresh, calledGen := true, executed := none }
    | .ok content =>
      let sql := clean1 content
      if startsWithSelect sql then
        match run sql with
        | .error e =>
          { state := st', status := 500, resp := .fail e,
            fetchedCatalog := doRefresh, calledGen := true,
            executed := some (.rpc "run_sql" "query_text" sql) }
        | .ok rows =>
          { state := st', status := 200,
            resp := .ok
              { summary := "Fetched " ++ toString rows.length ++
                  " rows for \x22" ++ (question.getD "") ++ "\x22",
                sql := sql,
                table := rows },
            fetchedCatalog := doRefresh, calledGen := true,
            executed := some (.rpc "run_sql" "query_text" sql) }
      else
        { state := st', status := 500,
          resp := .fail "Only SELECT queries are allowed",
          fetchedCatalog := doRefresh, calledGen := true, executed := none }

/-- Outcome of one request in part_002 variant D. -/
structure OutcomeD (ρ : Type) where
  status : Nat
  resp : Resp ρ
  calledGen : Bool
  executed : Option DbCall
deriving DecidableEq, Repr

/-- part_002 variant D `POST /ai/query` (lines 174-200).  `gen` is the
raw OpenAI content handed to `generateSQL`'s cleanup; `db` is the
outcome of the fixed `supabase.from("PO_Pending").select("*").limit(10)`
call, which does not depend on the generated SQL. -/
def handleQueryD {ρ : Type} (question : Option String)
    (gen : Except String String) (db : Except String (List ρ)) : OutcomeD ρ :=
  if falsyQ question then
    { status := 400, resp := .fail "Question is required.",
      calledGen := false, executed := none }
  else
    match gen with
    | .error e =>
      { status := 500, resp := .fail e, calledGen := true, executed := none }
    | .ok content =>
      let sql := cleanD content
      if startsWithSelectWs sql then
        match db with
        | .error e =>
          { status := 500, resp := .fail e, calledGen := true,
            executed := some (.tableSelect "PO_Pending" "*" 10) }
        | .ok rows =>
          { status := 200,
            resp := .ok
              { summary := "Fetched " ++ toString rows.length ++ " rows.",
                sql := sql,
                table := rows },
            calledGen := true,
            executed := some (.tableSelect "PO_Pending" "*" 10) }
      else
        { status := 400, resp := .fail "Only SELECT queries are allowed",
          calledGen := true, executed := none }

/-- The number of table rows carried by a response (0 for errors). -/
def tableLen {ρ : Type} : Resp ρ → Nat
  | .ok b => b.table.length
  | .fail _ => 0

/-- A concrete prior schema snapshot used in several concrete evaluations. -/
def priorSnapshot : List SchemaColumn :=
  [⟨"PO_Pending", "Qty", "numeric"⟩, ⟨"Checklist", "Task", "text"⟩]

/-! ### Lemmas about prefixes, substrings, trimming and fence stripping -/

theorem isPrefixChars_nil (l : List Char) : isPrefixChars [] l = true := by
  cases l <;> simp [isPrefixChars]

theorem isPrefixChars_append_extend (p : List Char) :
    ∀ l t : List Char, isPrefixChars p l = true → isPrefixChars p (l ++ t) = true := by
  induction p with
  | nil => intro l t _; exact isPrefixChars_nil _
  | cons a ps ih =>
    intro l t h
    cases l with
    | nil => simp [isPrefixChars] at h
    | cons b bs =>
      simp only [isPrefixChars, Bool.and_eq_true, decide_eq_true_eq] at h
      simp only [List.cons_append, isPrefixChars, Bool.and_eq_true, decide_eq_true_eq]
      exact ⟨h.1, ih bs t h.2⟩

theorem isPrefixChars_self_append (p t : List Char) :
    isPrefixChars p (p ++ t) = true := by
  induction p with
  | nil => exact isPrefixChars_nil _
  | cons a ps ih => simp [isPrefixChars, ih]

theorem containsSub_nil_pat (l : List Char) : containsSub [] l = true := by
  cases l <;> simp [containsSub, isPrefixChars]

theorem containsSub_append_left (pat : List Char) :
    ∀ a b : List Char, containsSub pat a = true → containsSub pat (a ++ b) = true := by
  intro a
  induction a with
  | nil =>
    intro b h
    cases pat with
    | nil => exact containsSub_nil_pat _
    | cons p ps => simp [containsSub, isPrefixChars] at h
  | cons c cs ih =>
    intro b h
    simp only [containsSub, Bool.or_eq_true] at h
    simp only [List.cons_append, containsSub, Bool.or_eq_true]
    rcases h with h | h
    · exact Or.inl (by simpa using isPrefixChars_append_extend pat (c :: cs) b h)
    · exact Or.inr (ih b h)

theorem containsSub_append_right (pat b : List Char) :
    ∀ a : List Char, containsSub pat b = true → containsSub pat (a ++ b) = true := by
  intro a
  induction a with
  | nil => intro h; simpa using h
  | cons c cs ih =>
    intro h
    simp only [List.cons_append, containsSub, Bool.or_eq_true]
    exact Or.inr (ih h)

theorem containsSub_middle (pat a b : List Char) :
    containsSub pat (a ++ (pat ++ b)) = true := by
  apply containsSub_append_right
  cases pat with
  | nil => exact containsSub_nil_pat _
  | cons p ps =>
    simp only [containsSub, Bool.or_eq_true]
    exact Or.inl (by simpa using isPrefixChars_self_append (p :: ps) b)

theorem containsSub_eq_false_left (pat a b : List Char)
    (h : containsSub pat (a ++ b) = false) : containsSub pat a = false := by
  cases ha : containsSub pat a with
  | false => rfl
  | true => rw [containsSub_append_left pat a b ha] at h; exact h

theorem containsSub_eq_false_right (pat a b : List Char)
    (h : containsSub pat (a ++ b) = false) : containsSub pat b = false := by
  cases hb : containsSub pat b with
  | false => rfl
  | true => rw [containsSub_append_right pat b a hb] at h; exact h

theorem containsSub_trimChars (pat l : List Char)
    (h : containsSub pat l = false) : containsSub pat (trimChars l) = false := by
  unfold trimChars
  have h1 : containsSub pat (l.dropWhile jsWs) = false := by
    apply containsSub_eq_false_right pat (l.takeWhile jsWs)
    rw [List.takeWhile_append_dropWhile]
    exact h
  have hd : l.dropWhile jsWs =
      ((l.dropWhile jsWs).reverse.dropWhile jsWs).reverse ++
        ((l.dropWhile jsWs).reverse.takeWhile jsWs).reverse := by
    calc l.dropWhile jsWs = (l.dropWhile jsWs).reverse.reverse := by simp
    _ = ((l.dropWhile jsWs).reverse.takeWhile jsWs ++
          (l.dropWhile jsWs).reverse.dropWhile jsWs).reverse := by
        rw [List.takeWhile_append_dropWhile]
    _ = _ := by rw [List.reverse_append]
  rw [hd] at h1
  exact containsSub_eq_false_left _ _ _ h1

theorem stripFences_cons_no_fence (c : Char) (rest : List Char)
    (h : isPrefixChars ['`', '`', '`'] (c :: rest) = false) :
    stripFences (c :: rest) = c :: stripFences rest := by
  conv_lhs => rw [stripFences.eq_def]
  split <;> simp_all [isPrefixChars]

theorem stripFences_bt (l : List Char) (h : isPrefixChars ['`'] l = false) :
    isPrefixChars ['`'] (stripFences l) = false := by
  rcases l with _ | ⟨c, rest⟩
  · simpa [stripFences] using h
  · have hc : ('`' : Char) ≠ c := by
      simpa [isPrefixChars] using h
    rw [stripFences_cons_no_fence c rest (by simp [isPrefixChars, hc])]
    simpa [isPrefixChars] using hc

theorem stripFences_bb (l : List Char) (h : isPrefixChars ['`', '`'] l = false) :
    isPrefixChars ['`', '`'] (stripFences l) = false := by
  rcases l with _ | ⟨c, rest⟩
  · simpa [stripFences] using h
  · by_cases hc : ('`' : Char) = c
    · subst hc
      have hrest : isPrefixChars ['`'] rest = false := by
        simpa [isPrefixChars] using h
      have hf : isPrefixChars ['`', '`', '`'] ('`' :: rest) = false := by
        rcases rest with _ | ⟨d, r2⟩
        · simp [isPrefixChars]
        · have : ('`' : Char) ≠ d := by simpa [isPrefixChars] using hrest
          simp [isPrefixChars, this]
      rw [stripFences_cons_no_fence _ _ hf]
      simpa [isPrefixChars] using stripFences_bt rest hrest
    · rw [stripFences_cons_no_fence c rest (by simp [isPrefixChars, hc])]
      simp [isPrefixChars, hc]

theorem stripFences_no_fence (l : List Char) :
    containsSub ['`', '`', '`'] (stripFences l) = false := by
  induction l using stripFences.induct
  case case1 rest ih => simpa [stripFences] using ih
  case case2 rest ih => simpa [stripFences] using ih
  case case4 => simp [stripFences, containsSub, isPrefixChars]
  case case3 c rest hsql hbb ih =>
    have hf : isPrefixChars ['`', '`', '`'] (c :: rest) = false := by
      rcases rest with _ | ⟨d, rest2⟩
      · simp [isPrefixChars]
      · rcases rest2 with _ | ⟨e, rest3⟩
        · simp [isPrefixChars]
        · by_contra hb
          rw [Bool.not_eq_false] at hb
          simp only [isPrefixChars, Bool.and_eq_true, decide_eq_true_eq] at hb
          obtain ⟨h1, h2, h3, -⟩ := hb
          exact hbb rest3 h1.symm (by rw [← h2, ← h3])
    rw [stripFences_cons_no_fence c rest hf]
    simp only [containsSub, Bool.or_eq_false_iff]
    refine ⟨?_, ih⟩
    by_cases hc : ('`' : Char) = c
    · subst hc
      have hbbrest : isPrefixChars ['`', '`'] rest = false := by
        rcases rest with _ | ⟨d, rest2⟩
        · simp [isPrefixChars]
        · by_contra hb
          rw [Bool.not_eq_false] at hb
          simp only [isPrefixChars, Bool.and_eq_true, decide_eq_true_eq] at hb
          rcases rest2 with _ | ⟨e, rest3⟩
          · simp [isPrefixChars] at hb
          · simp only [isPrefixChars, Bool.and_eq_true, decide_eq_true_eq] at hb
            obtain ⟨h1, h2, -⟩ := hb
            exact hbb rest3 rfl (by rw [← h1, ← h2])
      have := stripFences_bb rest hbbrest
      simpa [isPrefixChars] using this
    · simp [isPrefixChars, hc]

theorem cleanA_no_fence (raw : String) : containsStr "```" (cleanA raw) = false := by
  show containsSub ['`', '`', '`'] (trimChars (stripFences (trimChars raw.data))) = false
  exact containsSub_trimChars _ _ (stripFences_no_fence _)

theorem clean1_no_fence (raw : String) : containsStr "```" (clean1 raw) = false := by
  show containsSub ['`', '`', '`'] (trimChars (stripFences raw.data)) = false
  exact containsSub_trimChars _ _ (stripFences_no_fence _)

theorem containsSub_self_append (pat b : List Char) :
    containsSub pat (pat ++ b) = true := by
  cases pat with
  | nil => exact containsSub_nil_pat _
  | cons p ps =>
    simp only [List.cons_append, containsSub, Bool.or_eq_true]
    exact Or.inl (by simpa using isPrefixChars_self_append (p :: ps) b)


theorem lowerChars_append (a b : List Char) :
    lowerChars (a ++ b) = lowerChars a ++ lowerChars b := by
  simp [lowerChars]

theorem lowerChars_foldr (ps : List (List Char)) (b : List Char) :
    lowerChars (ps.foldr (· ++ ·) b) =
      (ps.map lowerChars).foldr (· ++ ·) (lowerChars b) := by
  induction ps with
  | nil => rfl
  | cons p ps ih => simp only [List.foldr, List.map, lowerChars_append, ih]

theorem foldr_append_base (ps : List (List Char)) (b : List Char) :
    (ps.foldr (· ++ ·) []) ++ b = ps.foldr (· ++ ·) b := by
  induction ps with
  | nil => simp
  | cons p ps ih => simp only [List.foldr, List.append_assoc, ih]

theorem isPrefixChars_confine (pat : List Char) :
    ∀ x y : List Char, isPrefixChars pat (x ++ y) = true →
      pat.length ≤ x.length → isPrefixChars pat x = true := by
  induction pat with
  | nil => intro x y _ _; exact isPrefixChars_nil _
  | cons p ps ih =>
    intro x y h hl
    cases x with
    | nil => simp at hl
    | cons c x' =>
      simp only [List.cons_append, isPrefixChars, Bool.and_eq_true,
        decide_eq_true_eq] at h ⊢
      exact ⟨h.1, ih x' y h.2 (by simpa using hl)⟩

theorem isPrefixChars_swap :
    ∀ (x pat y : List Char), isPrefixChars pat (x ++ y) = true →
      x.length < pat.length → isPrefixChars x pat = true := by
  intro x
  induction x with
  | nil => intro pat y _ _; exact isPrefixChars_nil _
  | cons c x' ih =>
    intro pat y h hl
    cases pat with
    | nil => simp at hl
    | cons p ps =>
      simp only [List.cons_append, isPrefixChars, Bool.and_eq_true,
        decide_eq_true_eq] at h ⊢
      exact ⟨h.1.symm, ih ps y h.2 (by simpa using hl)⟩

theorem isPrefixChars_mem :
    ∀ (x pat : List Char) (a : Char), isPrefixChars x pat = true →
      a ∈ x → a ∈ pat := by
  intro x
  induction x with
  | nil => intro pat a _ hm; cases hm
  | cons c x' ih =>
    intro pat a h hm
    cases pat with
    | nil => simp [isPrefixChars] at h
    | cons p ps =>
      simp only [isPrefixChars, Bool.and_eq_true, decide_eq_true_eq] at h
      rcases List.mem_cons.mp hm with rfl | hm'
      · exact List.mem_cons.mpr (Or.inl h.1)
      · exact List.mem_cons.mpr (Or.inr (ih ps a h.2 hm'))

theorem containsSub_cross (pat : List Char) (hnl : '\n' ∉ pat) :
    ∀ a b : List Char, a.getLast? = some '\n' →
      containsSub pat (a ++ b) = true →
      containsSub pat a = true ∨ containsSub pat b = true := by
  intro a
  induction a with
  | nil => intro b ha; simp at ha
  | cons c a' ih =>
    intro b ha h
    simp only [List.cons_append, containsSub, Bool.or_eq_true] at h
    rcases h with hpref | hrest
    · by_cases hl : pat.length ≤ (c :: a').length
      · left
        simp only [containsSub, Bool.or_eq_true]
        exact Or.inl (isPrefixChars_confine pat (c :: a') b
          (by simpa using hpref) hl)
      · exfalso
        have hswap : isPrefixChars (c :: a') pat = true :=
          isPrefixChars_swap (c :: a') pat b (by simpa using hpref)
            (by omega)
        have hne : (c :: a') ≠ [] := by simp
        have hlast : (c :: a').getLast hne = '\n' := by
          have := List.getLast?_eq_getLast (c :: a') hne
          rw [this] at ha
          exact Option.some_injective _ ha
        have : ('\n' : Char) ∈ (c :: a') := hlast ▸ List.getLast_mem hne
        exact hnl (isPrefixChars_mem (c :: a') pat '\n' hswap this)
    · cases a' with
      | nil =>
        right
        simpa using hrest
      | cons d a'' =>
        have ha' : (d :: a'').getLast? = some '\n' := by
          rw [← List.getLast?_cons_cons]
          exact ha
        rcases ih b ha' hrest with hc | hc
        · left
          show (isPrefixChars pat (c :: d :: a'') || containsSub pat (d :: a'')) = true
          rw [hc, Bool.or_true]
        · exact Or.inr hc

theorem containsSub_append_nl_false (pat : List Char) (hnl : '\n' ∉ pat)
    (a b : List Char) (ha : a.getLast? = some '\n')
    (h1 : containsSub pat a = false) (h2 : containsSub pat b = false) :
    containsSub pat (a ++ b) = false := by
  cases h : containsSub pat (a ++ b) with
  | false => rfl
  | true =>
    rcases containsSub_cross pat hnl a b ha h with hc | hc
    · cases h1.symm.trans hc
    · cases h2.symm.trans hc

theorem containsSub_foldr_false (pat : List Char) (hnl : '\n' ∉ pat)
    (b : List Char) (hb : containsSub pat b = false) :
    ∀ ps : List (List Char),
      (∀ p ∈ ps, p.getLast? = some '\n' ∧ containsSub pat p = false) →
      containsSub pat (ps.foldr (· ++ ·) b) = false := by
  intro ps
  induction ps with
  | nil => intro _; exact hb
  | cons p ps ih =>
    intro hps
    have hp := hps p (List.mem_cons_self p ps)
    have hrest := ih (fun r hr => hps r (List.mem_cons_of_mem p hr))
    simpa using containsSub_append_nl_false pat hnl p (ps.foldr (· ++ ·) b)
      hp.1 hp.2 hrest

theorem containsSub_foldr_true (pat b : List Char) (ps : List (List Char))
    (h : ∃ p ∈ ps, containsSub pat p = true) :
    containsSub pat (ps.foldr (· ++ ·) b) = true := by
  induction ps with
  | nil => rcases h with ⟨p, hp, -⟩; cases hp
  | cons p ps ih =>
    rcases h with ⟨r, hr, hc⟩
    rcases List.mem_cons.mp hr with rfl | hr'
    · simpa using containsSub_append_left pat r (ps.foldr (· ++ ·) b) hc
    · simpa using containsSub_append_right pat (ps.foldr (· ++ ·) b) p
        (ih ⟨r, hr', hc⟩)

theorem prompt1_data (sc q : String) :
    (prompt1 sc q).data =
      (prompt1Pieces.map String.data).foldr (· ++ ·)
        (sc.data ++ ("\n\nUser question: \x22".data ++ (q.data ++ "\x22\n".data))) := by
  unfold prompt1
  simp only [String.data_append, List.append_assoc]
  rw [show prompt1Pre.data = (prompt1Pieces.map String.data).foldr (· ++ ·) [] from rfl,
    foldr_append_base]

theorem buildPrompt_data (sc q : String) :
    (buildPrompt sc q).data =
      (promptPiecesA.map String.data).foldr (· ++ ·)
        (sc.data ++ ("\n\nUser question: \x22".data ++
          (q.data ++ "\x22\n\nReturn only SQL code, no explanation.\n".data))) := by
  unfold buildPrompt
  simp only [String.data_append, List.append_assoc]
  rw [show promptPreA.data = (promptPiecesA.map String.data).foldr (· ++ ·) [] from rfl,
    foldr_append_base]

/-! ### The claims -/

/-- C1 counterexample: the raw text `selection of rows` has first token
`selection`, not `select`, so by the claim validation must fail and the
text must never reach execution; but in the final server.js variant the
guard is `/^select/i`, which accepts it, and the text is passed to the
`run_sql` RPC with a 200 response. -/
theorem c1_counterexample :
    lowerChars (specFirstToken (cleanA "selection of rows")) ≠ "select".data ∧
    (handleQueryA (ρ := Nat) (some "list rows") (.ok "selection of rows")
        (fun _ => .ok [])).executed = some (.rpc "run_sql" "sql" "selection of rows") ∧
    (handleQueryA (ρ := Nat) (some "list rows") (.ok "selection of rows")
        (fun _ => .ok [])).status = 200 := by
  refine ⟨by decide, by decide, by decide⟩

/-- C1 (amended): in the final server.js variant, validation is a
case-insensitive prefix check on the cleaned text: if the cleaned text
does not start with `select`, the request fails with the
"Only SELECT queries are allowed" error and nothing reaches the
execution RPC; if it does start with `select` (even as part of a longer
first token), the cleaned text is sent to the `run_sql` RPC. -/
theorem c1_amended {ρ : Type} (q : String) (hq : q ≠ "")
    (content : String) (run : String → Except String (List ρ)) :
    (startsWithSelect (cleanA content) = false →
      (handleQueryA (some q) (.ok content) run).resp =
          .fail "Only SELECT queries are allowed" ∧
        (handleQueryA (some q) (.ok content) run).status = 500 ∧
        (handleQueryA (some q) (.ok content) run).executed = none) ∧
    (startsWithSelect (cleanA content) = true →
      (handleQueryA (some q) (.ok content) run).executed =
        some (.rpc "run_sql" "sql" (cleanA content))) := by
  constructor
  · intro h
    simp [handleQueryA, falsyQ, hq, h]
  · intro h
    simp only [handleQueryA, falsyQ, hq, h, decide_eq_true_eq, if_false, if_true]
    cases run (cleanA content) <;> simp

/-- C1 witness: the amended theorem applied at the concrete rejected
generation `DROP TABLE Souda;`. -/
theorem c1_amended_witness :
    (startsWithSelect (cleanA "DROP TABLE Souda;") = false →
      (handleQueryA (ρ := Nat) (some "drop it") (.ok "DROP TABLE Souda;") (fun _ => .ok [])).resp =
          .fail "Only SELECT queries are allowed" ∧
        (handleQueryA (ρ := Nat) (some "drop it") (.ok "DROP TABLE Souda;") (fun _ => .ok [])).status = 500 ∧
        (handleQueryA (ρ := Nat) (some "drop it") (.ok "DROP TABLE Souda;") (fun _ => .ok [])).executed = none) ∧
    (startsWithSelect (cleanA "DROP TABLE Souda;") = true →
      (handleQueryA (ρ := Nat) (some "drop it") (.ok "DROP TABLE Souda;") (fun _ => .ok [])).executed =
        some (.rpc "run_sql" "sql" (cleanA "DROP TABLE Souda;"))) :=
  c1_amended "drop it" (by decide) "DROP TABLE Souda;" (fun _ => .ok [])

/-- C2 counterexample: cleaning the raw model output
`SELECT * FROM "Checklist";` leaves the trailing semicolon in place, so
the cleaned result is not the claimed `SELECT * FROM "Checklist"`. -/
theorem c2_counterexample :
    cleanA "SELECT * FROM \x22Checklist\x22;" = "SELECT * FROM \x22Checklist\x22;" ∧
    cleanA "SELECT * FROM \x22Checklist\x22;" ≠ "SELECT * FROM \x22Checklist\x22" := by
  refine ⟨by decide, by decide⟩

/-- C2 (amended): the cleanup of server.js (and of part_001) removes all
code-fence markers — the cleaned output never contains a three-backtick
fence — but it does not strip trailing semicolons: cleaning
`SELECT * FROM "Checklist";` returns it unchanged (fenced input loses
only the fences), and validation succeeds on it. -/
theorem c2_amended :
    (∀ raw : String, containsStr "```" (cleanA raw) = false) ∧
    (∀ raw : String, containsStr "```" (clean1 raw) = false) ∧
    cleanA "SELECT * FROM \x22Checklist\x22;" = "SELECT * FROM \x22Checklist\x22;" ∧
    clean1 "```sql\nSELECT * FROM \x22Checklist\x22;\n```" = "SELECT * FROM \x22Checklist\x22;" ∧
    startsWithSelect (cleanA "SELECT * FROM \x22Checklist\x22;") = true := by
  refine ⟨cleanA_no_fence, clean1_no_fence, by decide, by decide, by decide⟩

/-- C3: evaluation at the failing input. With a prior snapshot cached and
more than 24 hours old, a query request whose `get_schema` RPC resolves
to `{data: null, error}` overwrites the cached snapshot with `null`
(the code never checks the error) and the request continues to a 200
response, silently clobbering the previously published snapshot. -/
theorem c3_autorefresh_clobbers :
    (handleQuery1 (κ := SchemaColumn) (ρ := Nat)
        ⟨some priorSnapshot, some 0⟩ (some "show pending purchase orders")
        (none, some "fetch failed") (.ok "select 1") (fun _ => .ok [])
        86400001).state.cachedSchema = none ∧
    (handleQuery1 (κ := SchemaColumn) (ρ := Nat)
        ⟨some priorSnapshot, some 0⟩ (some "show pending purchase orders")
        (none, some "fetch failed") (.ok "select 1") (fun _ => .ok [])
        86400001).fetchedCatalog = true ∧
    (handleQuery1 (κ := SchemaColumn) (ρ := Nat)
        ⟨some priorSnapshot, some 0⟩ (some "show pending purchase orders")
        (none, some "fetch failed") (.ok "select 1") (fun _ => .ok [])
        86400001).status = 200 := by
  refine ⟨by decide, by decide, by decide⟩

/-- C4 counterexample: the part_001 handler returns all 60 rows the
executor produced in `table` — more than any 20-50 row cap. -/
theorem c4_counterexample :
    (handleQuery1 (κ := SchemaColumn) (ρ := Nat) ⟨some priorSnapshot, some 0⟩
        (some "x") (none, none) (.ok "select 1")
        (fun _ => .ok (List.range 60)) 1).resp =
      .ok { summary := "Fetched 60 rows for \x22x\x22", sql := "select 1",
            table := List.range 60 } ∧
    50 < tableLen (handleQuery1 (κ := SchemaColumn) (ρ := Nat) ⟨some priorSnapshot, some 0⟩
        (some "x") (none, none) (.ok "select 1")
        (fun _ => .ok (List.range 60)) 1).resp := by
  refine ⟨by decide, by decide⟩

/-- C4 (amended): only the final server.js variant truncates `table`,
to at most 20 rows; the part_001 variant returns every row the executor
returned, uncapped. -/
theorem c4_amended {ρ κ : Type} (q : Option String) (gen : Except String String)
    (run : String → Except String (List ρ)) (st : StoreState κ)
    (f : Option (List κ) × Option String) (now : Nat) (q1 : String) (hq1 : q1 ≠ "")
    (content : String) (rows : List ρ)
    (hsel : startsWithSelect (clean1 content) = true) :
    tableLen (handleQueryA q gen run).resp ≤ 20 ∧
    (handleQuery1 st (some q1) f (.ok content) (fun _ => .ok rows) now).resp =
      .ok { summary := "Fetched " ++ toString rows.length ++ " rows for \x22" ++ q1 ++ "\x22",
            sql := clean1 content, table := rows } := by
  constructor
  · unfold handleQueryA
    rcases q with _ | q
    · simp [falsyQ, tableLen]
    · by_cases hq : q = ""
      · simp [falsyQ, hq, tableLen]
      · simp only [falsyQ, hq]
        rcases gen with e | content'
        · simp [tableLen]
        · simp only []
          by_cases hs : startsWithSelect (cleanA content') = true
          · simp only [hs, if_true]
            rcases hr : run (cleanA content') with e | rows'
            · simp [tableLen]
            · simp [tableLen, List.length_take]
          · simp [Bool.not_eq_true] at hs
            simp [hs, tableLen]
  · simp [handleQuery1, falsyQ, hq1, hsel]

/-- C4 witness: the amended theorem applied at a 60-row executor
result. -/
theorem c4_amended_witness :
    tableLen (handleQueryA (ρ := Nat) (some "x") (.ok "select 1")
        (fun _ => .ok (List.range 60))).resp ≤ 20 ∧
    (handleQuery1 (κ := SchemaColumn) (ρ := Nat) ⟨some priorSnapshot, some 0⟩ (some "x")
        (none, none) (.ok "select 1") (fun _ => .ok (List.range 60)) 1).resp =
      .ok { summary := "Fetched " ++ toString (List.range 60).length ++ " rows for \x22x\x22",
            sql := clean1 "select 1", table := List.range 60 } :=
  c4_amended (some "x") (.ok "select 1") (fun _ => .ok (List.range 60))
    ⟨some priorSnapshot, some 0⟩ (none, none) 1 "x" (by decide) "select 1"
    (List.range 60) (by decide)

/-- C5 counterexample: in part_001, a request without `question` is
answered with status 500 — an error message, but not a 400-class client
error. -/
theorem c5_counterexample :
    (handleQuery1 (κ := SchemaColumn) (ρ := Nat) ⟨none, none⟩ none (none, none)
        (.ok "") (fun _ => .ok []) 0).resp =
      .fail "Missing \x27question\x27 in request body" ∧
    (handleQuery1 (κ := SchemaColumn) (ρ := Nat) ⟨none, none⟩ none (none, none)
        (.ok "") (fun _ => .ok []) 0).status = 500 ∧
    ¬(400 ≤ (handleQuery1 (κ := SchemaColumn) (ρ := Nat) ⟨none, none⟩ none (none, none)
        (.ok "") (fun _ => .ok []) 0).status ∧
      (handleQuery1 (κ := SchemaColumn) (ρ := Nat) ⟨none, none⟩ none (none, none)
        (.ok "") (fun _ => .ok []) 0).status < 500) := by
  refine ⟨by decide, by decide, by decide⟩

/-- C5 (amended): a request lacking `question` always gets an error
response with no downstream call (no catalog fetch, no generation, no
execution); the two server.js variants and part_002 answer with status
400, while part_001 throws and answers with status 500. -/
theorem c5_amended {ρ κ : Type}
    (gen : Except String String) (run : String → Except String (List ρ))
    (genB : Except String String) (runB : String → Except String (List ρ))
    (vercel : Bool) (render : Except String String)
    (st : StoreState κ) (f : Option (List κ) × Option String) (now : Nat)
    (gen1 : Except String String) (run1 : String → Except String (List ρ))
    (genD : Except String String) (db : Except String (List ρ)) :
    (handleQueryA none gen run).status = 400 ∧
    (handleQueryA none gen run).resp = .fail "Missing question" ∧
    (handleQueryA none gen run).calledGen = false ∧
    (handleQueryA none gen run).executed = none ∧
    (handleQueryB none genB runB vercel render).status = 400 ∧
    (handleQueryB none genB runB vercel render).calledGen = false ∧
    (handleQueryB none genB runB vercel render).executed = none ∧
    (handleQuery1 st none f gen1 run1 now).status = 500 ∧
    (handleQuery1 st none f gen1 run1 now).resp =
      .fail "Missing \x27question\x27 in request body" ∧
    (handleQuery1 st none f gen1 run1 now).fetchedCatalog = false ∧
    (handleQuery1 st none f gen1 run1 now).calledGen = false ∧
    (handleQuery1 st none f gen1 run1 now).executed = none ∧
    (handleQuery1 st none f gen1 run1 now).state = st ∧
    (handleQueryD none genD db).status = 400 ∧
    (handleQueryD none genD db).calledGen = false ∧
    (handleQueryD none genD db).executed = none := by
  simp [handleQueryA, handleQueryB, handleQuery1, handleQueryD, falsyQ]
/-- C6 counterexample: when the catalog fetch fails, the `/ai/refresh`
response body is `{error: "Schema refresh failed", details}` — it
carries no `success` key at all, hence not `success: false`. -/
theorem c6_counterexample :
    (handleRefresh1 (κ := SchemaColumn) ⟨some priorSnapshot, some 0⟩
        (.error "fetch failed") 1000).body =
      [("error", .str "Schema refresh failed"), ("details", .str "fetch failed")] ∧
    List.lookup "success"
      (handleRefresh1 (κ := SchemaColumn) ⟨some priorSnapshot, some 0⟩
        (.error "fetch failed") 1000).body = none := by
  refine ⟨by decide, by decide⟩

/-- C6 (amended): a failed catalog fetch makes `GET /ai/refresh` answer
status 500 with body `{error: "Schema refresh failed", details}` (no
`success` field), leaves the cached snapshot unchanged, and a subsequent
`POST /ai/query` against the retained non-stale snapshot succeeds with
the executor rows. -/
theorem c6_amended {κ ρ : Type} (st : StoreState κ) (e : String) (now : Nat)
    (sch : List κ) (t now' : Nat) (q content : String) (rows : List ρ)
    (f : Option (List κ) × Option String)
    (hsch : st.cachedSchema = some sch) (ht : st.lastRefreshedAt = some t)
    (hfresh : now' - t ≤ 86400000) (hq : q ≠ "")
    (hsel : startsWithSelect (clean1 content) = true) :
    (handleRefresh1 st (.error e) now).status = 500 ∧
    (handleRefresh1 st (.error e) now).state = st ∧
    (handleRefresh1 st (.error e) now).body =
      [("error", .str "Schema refresh failed"), ("details", .str e)] ∧
    List.lookup "success" (handleRefresh1 st (.error e) now).body = none ∧
    (handleQuery1 (handleRefresh1 st (.error e) now).state (some q) f
        (.ok content) (fun _ => .ok rows) now').status = 200 ∧
    (handleQuery1 (handleRefresh1 st (.error e) now).state (some q) f
        (.ok content) (fun _ => .ok rows) now').state = st ∧
    (handleQuery1 (handleRefresh1 st (.error e) now).state (some q) f
        (.ok content) (fun _ => .ok rows) now').resp =
      .ok { summary := "Fetched " ++ toString rows.length ++ " rows for \x22" ++ q ++ "\x22",
            sql := clean1 content, table := rows } := by
  have hnr : needsRefresh1 st now' = false := by
    simp [needsRefresh1, hsch, ht]
    omega
  refine ⟨by simp [handleRefresh1], by simp [handleRefresh1], by simp [handleRefresh1],
    by simp [handleRefresh1], ?_, ?_, ?_⟩ <;>
    simp [handleRefresh1, handleQuery1, falsyQ, hq, hnr, hsel]

/-- C6 witness: the amended theorem applied at a concrete failed refresh
followed by a successful query. -/
theorem c6_amended_witness :
    (handleRefresh1 (κ := SchemaColumn) ⟨some priorSnapshot, some 0⟩ (.error "boom") 7).status = 500 ∧
    (handleRefresh1 (κ := SchemaColumn) ⟨some priorSnapshot, some 0⟩ (.error "boom") 7).state =
      ⟨some priorSnapshot, some 0⟩ ∧
    (handleRefresh1 (κ := SchemaColumn) ⟨some priorSnapshot, some 0⟩ (.error "boom") 7).body =
      [("error", .str "Schema refresh failed"), ("details", .str "boom")] ∧
    List.lookup "success"
      (handleRefresh1 (κ := SchemaColumn) ⟨some priorSnapshot, some 0⟩ (.error "boom") 7).body = none ∧
    (handleQuery1 (ρ := Nat) (handleRefresh1 (κ := SchemaColumn) ⟨some priorSnapshot, some 0⟩
        (.error "boom") 7).state (some "q") (none, none)
        (.ok "select 1") (fun _ => .ok [3]) 8).status = 200 ∧
    (handleQuery1 (ρ := Nat) (handleRefresh1 (κ := SchemaColumn) ⟨some priorSnapshot, some 0⟩
        (.error "boom") 7).state (some "q") (none, none)
        (.ok "select 1") (fun _ => .ok [3]) 8).state = ⟨some priorSnapshot, some 0⟩ ∧
    (handleQuery1 (ρ := Nat) (handleRefresh1 (κ := SchemaColumn) ⟨some priorSnapshot, some 0⟩
        (.error "boom") 7).state (some "q") (none, none)
        (.ok "select 1") (fun _ => .ok [3]) 8).resp =
      .ok { summary := "Fetched " ++ toString [3].length ++ " rows for \x22q\x22",
            sql := clean1 "select 1", table := [3] } :=
  c6_amended ⟨some priorSnapshot, some 0⟩ "boom" 7 priorSnapshot 0 8 "q" "select 1"
    [3] (none, none) rfl rfl (by decide) (by decide) (by decide)

set_option maxRecDepth 20000 in
/-- C7 counterexample: the part_001 prompt for
`show pending purchase orders` contains no SELECT-only directive (no
case-insensitive occurrence of "only select" or "select statements") and
no uppercase-quoting directive, although it does contain `PO_Pending`;
so not every assembled prompt carries the invariant directives
verbatim. -/
theorem c7_counterexample :
    containsStrCI "only select" (prompt1 "null" "show pending purchase orders") = false ∧
    containsStrCI "select statements" (prompt1 "null" "show pending purchase orders") = false ∧
    containsStrCI "uppercase" (prompt1 "null" "show pending purchase orders") = false ∧
    containsStr "PO_Pending" (prompt1 "null" "show pending purchase orders") = true := by
  refine ⟨?_, ?_, ?_, ?_⟩
  · unfold containsStrCI
    rw [prompt1_data, lowerChars_foldr, List.map_map]
    exact containsSub_foldr_false _ (by decide) _ (by decide) _ (by decide)
  · unfold containsStrCI
    rw [prompt1_data, lowerChars_foldr, List.map_map]
    exact containsSub_foldr_false _ (by decide) _ (by decide) _ (by decide)
  · unfold containsStrCI
    rw [prompt1_data, lowerChars_foldr, List.map_map]
    exact containsSub_foldr_false _ (by decide) _ (by decide) _ (by decide)
  · unfold containsStr
    rw [prompt1_data]
    exact containsSub_foldr_true _ _ _ (by decide)
set_option maxRecDepth 20000 in
/-- C7 (amended): every prompt assembled by server.js `buildPrompt`
contains verbatim the four invariant directives (SELECT-only,
uppercase/underscore quoting, no invented tables or columns, bounded
result sets), the literal `PO_Pending` and the full serialized snapshot,
for every question; the part_001 prompt contains `PO_Pending` and the
snapshot, but lacks the SELECT-only and quoting directives. -/
theorem c7_amended (sc q : String) :
    containsStr "Only generate SELECT statements; no inserts, updates, or deletes."
      (buildPrompt sc q) = true ∧
    containsStr "Always wrap table and column names that contain uppercase letters or underscores in double quotes (\x22\x22)."
      (buildPrompt sc q) = true ∧
    containsStr "Do not invent table or column names not listed in the schema."
      (buildPrompt sc q) = true ∧
    containsStr "Always include WHERE filters or LIMIT when the question suggests summarising, pending, or latest data."
      (buildPrompt sc q) = true ∧
    containsStr "PO_Pending" (buildPrompt sc q) = true ∧
    containsStr sc (buildPrompt sc q) = true ∧
    containsStr "PO_Pending" (prompt1 sc q) = true ∧
    containsStr sc (prompt1 sc q) = true := by
  refine ⟨?_, ?_, ?_, ?_, ?_, ?_, ?_, ?_⟩
  · unfold containsStr
    rw [buildPrompt_data]
    exact containsSub_foldr_true _ _ _ (by decide)
  · unfold containsStr
    rw [buildPrompt_data]
    exact containsSub_foldr_true _ _ _ (by decide)
  · unfold containsStr
    rw [buildPrompt_data]
    exact containsSub_foldr_true _ _ _ (by decide)
  · unfold containsStr
    rw [buildPrompt_data]
    exact containsSub_foldr_true _ _ _ (by decide)
  · unfold containsStr
    rw [buildPrompt_data]
    exact containsSub_foldr_true _ _ _ (by decide)
  · unfold containsStr
    rw [buildPrompt_data, ← foldr_append_base]
    exact containsSub_append_right _ _ _ (containsSub_self_append _ _)
  · unfold containsStr
    rw [prompt1_data]
    exact containsSub_foldr_true _ _ _ (by decide)
  · unfold containsStr
    rw [prompt1_data, ← foldr_append_base]
    exact containsSub_append_right _ _ _ (containsSub_self_append _ _)
/-- C8: in server.js variant B, when execution succeeded and the chart
rendering fails, the request still succeeds: status 200 with the
summary, the generated SQL and the full table, `chart` is `null`, and
the chart failure is logged with `console.warn` rather than surfaced. -/
theorem c8_chart_best_effort {ρ : Type} (q : String) (hq : q ≠ "")
    (content : String) (hsel : startsWithSelect (trimS content) = true)
    (rows : List ρ) (e : String) :
    (handleQueryB (some q) (.ok content) (fun _ => .ok rows) false (.error e)).status = 200 ∧
    (handleQueryB (some q) (.ok content) (fun _ => .ok rows) false (.error e)).resp =
      .ok { summary := "Fetched " ++ toString rows.length ++ " rows.",
            sql := trimS content, table := rows, chart := none } ∧
    (handleQueryB (some q) (.ok content) (fun _ => .ok rows) false (.error e)).chartWarned = true := by
  refine ⟨?_, ?_, ?_⟩ <;> simp [handleQueryB, falsyQ, hq, hsel]

/-- C8 witness: the theorem applied at a concrete failing render. -/
theorem c8_chart_best_effort_witness :
    (handleQueryB (ρ := Nat) (some "q") (.ok "select 1") (fun _ => .ok [7]) false
        (.error "render failed")).status = 200 ∧
    (handleQueryB (ρ := Nat) (some "q") (.ok "select 1") (fun _ => .ok [7]) false
        (.error "render failed")).resp =
      .ok { summary := "Fetched " ++ toString [7].length ++ " rows.",
            sql := trimS "select 1", table := [7], chart := none } ∧
    (handleQueryB (ρ := Nat) (some "q") (.ok "select 1") (fun _ => .ok [7]) false
        (.error "render failed")).chartWarned = true :=
  c8_chart_best_effort "q" (by decide) "select 1" (by decide) [7] "render failed"

/-- C9 counterexample: the chat-completion request each variant builds
carries no `temperature` key at all, so no generation request carries a
fixed near-zero temperature. -/
theorem c9_counterexample :
    (chatRequestA "SCHEMA" "show pending purchase orders").temperature = none ∧
    (chatRequestB "SYSTEM PROMPT" "show pending purchase orders").temperature = none ∧
    (chatRequest1 "null" "show pending purchase orders").temperature = none ∧
    (chatRequestD "PROMPT").temperature = none := by
  refine ⟨rfl, rfl, rfl, rfl⟩

/-- C9 (amended): every generation request pins the model
(`gpt-4o-mini`, or `gpt-4-turbo` in part_001) and the message list but
sets no decoding temperature; randomness is left at the provider
default. -/
theorem c9_amended (sc q sys p : String) :
    (chatRequestA sc q).temperature = none ∧
    (chatRequestA sc q).model = "gpt-4o-mini" ∧
    (chatRequestB sys q).temperature = none ∧
    (chatRequestB sys q).model = "gpt-4o-mini" ∧
    (chatRequest1 sc q).temperature = none ∧
    (chatRequest1 sc q).model = "gpt-4-turbo" ∧
    (chatRequestD p).temperature = none ∧
    (chatRequestD p).model = "gpt-4o-mini" := by
  refine ⟨rfl, rfl, rfl, rfl, rfl, rfl, rfl, rfl⟩

/-- C10: in part_002 variant D, whenever the generated text passes the
SELECT check, the database call actually executed is the fixed
`from("PO_Pending").select("*").limit(10)` query — independent of the
generated SQL — while the response reports the generated SQL in `sql`
and the rows of the fixed call in `table`. -/
theorem c10_fixed_execution {ρ : Type} (q : String) (hq : q ≠ "") (content : String)
    (hsel : startsWithSelectWs (cleanD content) = true) (rows : List ρ) :
    (handleQueryD (some q) (.ok content) (.ok rows)).executed =
      some (.tableSelect "PO_Pending" "*" 10) ∧
    (handleQueryD (some q) (.ok content) (.ok rows)).resp =
      .ok { summary := "Fetched " ++ toString rows.length ++ " rows.",
            sql := cleanD content, table := rows } ∧
    (handleQueryD (some q) (.ok content) (.ok rows)).status = 200 := by
  refine ⟨?_, ?_, ?_⟩ <;> simp [handleQueryD, falsyQ, hq, hsel]

/-- C10 witness: the theorem applied at a generated SQL that reads a
different table than the one actually queried. -/
theorem c10_fixed_execution_witness :
    (handleQueryD (ρ := Nat) (some "show pending purchase orders")
        (.ok "SELECT x FROM y") (.ok [1, 2, 3])).executed =
      some (.tableSelect "PO_Pending" "*" 10) ∧
    (handleQueryD (ρ := Nat) (some "show pending purchase orders")
        (.ok "SELECT x FROM y") (.ok [1, 2, 3])).resp =
      .ok { summary := "Fetched " ++ toString [1, 2, 3].length ++ " rows.",
            sql := cleanD "SELECT x FROM y", table := [1, 2, 3] } ∧
    (handleQueryD (ρ := Nat) (some "show pending purchase orders")
        (.ok "SELECT x FROM y") (.ok [1, 2, 3])).status = 200 :=
  c10_fixed_execution "show pending purchase orders" (by decide) "SELECT x FROM y"
    (by decide) [1, 2, 3]

end BizBot
